import Mathlib

/-!
Verification development for the OpenPilot Revolution attitude module
(`src/flight/Modules/Attitude/revolution/attitude.c`).

The C code is shallowly embedded over `ℚ`.  Machine `float` arithmetic is
modelled by exact rational arithmetic; the only transcendental operation the
module uses, `sqrtf`, is passed in as an explicit function parameter
`s : ℚ → ℚ`, and theorems that need properties of a square root state them as
hypotheses at the concrete argument where `sqrtf` is applied.  Division by
zero follows Lean's `ℚ` convention (`x / 0 = 0`); no claim settled here
depends on a division whose denominator can be zero in the corresponding C
execution.
-/

/-- A 3-vector of rationals, standing for a C `float[3]`. -/
structure V3 where
  x : ℚ
  y : ℚ
  z : ℚ
deriving DecidableEq

/-- A quaternion `(q0,q1,q2,q3)` with scalar part `q0`, standing for the
attitude quaternion `float q[4]` of `attitude.c`. -/
structure Quat where
  q0 : ℚ
  q1 : ℚ
  q2 : ℚ
  q3 : ℚ
deriving DecidableEq

/-- The identity quaternion `(1,0,0,0)` used by `AttitudeInitialize` and by
the numeric-recovery path. -/
def qId : Quat := ⟨1, 0, 0, 0⟩

/-- Squared Euclidean norm of a quaternion, written exactly as the C code
computes it (`q[0]*q[0] + q[1]*q[1] + q[2]*q[2] + q[3]*q[3]`). -/
def quatNormSq (q : Quat) : ℚ :=
  q.q0 * q.q0 + q.q1 * q.q1 + q.q2 * q.q2 + q.q3 * q.q3

/-- The attitude alarm (`SYSTEMALARMS_ALARM_ATTITUDE`): the module only ever
sets it to cleared or `WARNING`. -/
inductive AlarmState
| clear
| warning
deriving DecidableEq

/-- A 3x3 row-major rotation matrix (`float R[3][3]`). -/
structure M3 where
  r00 : ℚ
  r01 : ℚ
  r02 : ℚ
  r10 : ℚ
  r11 : ℚ
  r12 : ℚ
  r20 : ℚ
  r21 : ℚ
  r22 : ℚ
deriving DecidableEq

/-- Modelled from the spec: the Frame/Math library's vector cross product
(`CrossProduct` of `CoordinateConversions.c`, which is outside `src/`);
spec section 4.4 lists it as the standard stateless cross product. -/
def crossProd (u v : V3) : V3 :=
  ⟨u.y * v.z - u.z * v.y, u.z * v.x - u.x * v.z, u.x * v.y - u.y * v.x⟩

/-- Modelled from the spec: the Frame/Math library's quaternion to
rotation-matrix conversion (`Quaternion2R` of `CoordinateConversions.c`,
outside `src/`); spec section 4.4 lists it as the standard stateless
conversion. -/
def quaternion2R (q : Quat) : M3 :=
  ⟨q.q0 * q.q0 + q.q1 * q.q1 - q.q2 * q.q2 - q.q3 * q.q3,
   2 * (q.q1 * q.q2 + q.q0 * q.q3),
   2 * (q.q1 * q.q3 - q.q0 * q.q2),
   2 * (q.q1 * q.q2 - q.q0 * q.q3),
   q.q0 * q.q0 - q.q1 * q.q1 + q.q2 * q.q2 - q.q3 * q.q3,
   2 * (q.q2 * q.q3 + q.q0 * q.q1),
   2 * (q.q1 * q.q3 + q.q0 * q.q2),
   2 * (q.q2 * q.q3 - q.q0 * q.q1),
   q.q0 * q.q0 - q.q1 * q.q1 - q.q2 * q.q2 + q.q3 * q.q3⟩

/-- Modelled from the spec: the Frame/Math library's matrix-vector rotation
(`rot_mult(R, vec, out, FALSE)` of `CoordinateConversions.c`, outside
`src/`, in its non-transposed mode). -/
def rotMult (m : M3) (v : V3) : V3 :=
  ⟨m.r00 * v.x + m.r01 * v.y + m.r02 * v.z,
   m.r10 * v.x + m.r11 * v.y + m.r12 * v.z,
   m.r20 * v.x + m.r21 * v.y + m.r22 * v.z⟩

/-- `F_PI` of `attitude.c` line 72, the float literal
`3.14159265358979323846f` read as an exact rational. -/
def fPi : ℚ := 3.14159265358979323846

/-- `magKi` of `attitude.c` line 216: the file-scope constant `0.000001f`,
never touched by `settingsUpdatedCb`. -/
def magKi : ℚ := 1 / 1000000

/-- `magKp` of `attitude.c` line 217: the file-scope constant `0.0001f`,
never touched by `settingsUpdatedCb`. -/
def magKp : ℚ := 1 / 10000

/-- `FAILSAFE_TIMEOUT_MS` of `attitude.c` line 70. -/
def FAILSAFE_TIMEOUT_MS : ℕ := 10

/-- Timeout, in milliseconds, of the gyro-queue wait of
`updateAttitudeComplimentary` (line 229:
`xQueueReceive(gyroQueue, &ev, FAILSAFE_TIMEOUT_MS / portTICK_RATE_MS)`). -/
def cfGyroTimeoutMs : ℕ := FAILSAFE_TIMEOUT_MS

/-- Timeout, in milliseconds, of the accel-queue check of
`updateAttitudeComplimentary` (line 234:
`xQueueReceive(accelQueue, &ev, 0)` — a zero-timeout, non-blocking poll). -/
def cfAccelTimeoutMs : ℕ := 0

/-- Timeout, in milliseconds, of the mag-queue check of
`updateAttitudeComplimentary` (line 296: `xQueueReceive(magQueue, &ev, 0)`). -/
def cfMagTimeoutMs : ℕ := 0

/-- Timeout, in milliseconds, of the gyro-queue wait of
`updateAttitudeINSGPS` (line 416: `10 / portTICK_RATE_MS`). -/
def insGyroTimeoutMs : ℕ := 10

/-- Timeout, in milliseconds, of the accel-queue wait of
`updateAttitudeINSGPS` (line 417: `10 / portTICK_RATE_MS`). -/
def insAccelTimeoutMs : ℕ := 10

/-- Per-iteration inputs of `updateAttitudeComplimentary`: the outcomes of
the three queue checks this iteration, the sensor readings returned by
`GyrosGet`/`AccelsGet`/`MagnetometerGet`, the reference field `home.Be` of
`HomeLocationGet`, and the measured time step `dT`. -/
structure CFInputs where
  gyroFresh : Bool
  accelFresh : Bool
  magFresh : Bool
  gyro : V3
  accel : V3
  mag : V3
  homeBe : V3
  dT : ℚ
deriving DecidableEq

/-- The state `updateAttitudeComplimentary` reads and publishes each
iteration: the `AttitudeActual` quaternion, the `GyrosBias` object, and the
attitude alarm. -/
structure CFState where
  q : Quat
  bias : V3
  alarm : AlarmState
deriving DecidableEq

/-- Lines 284-286 of `attitude.c`: reference gravity rotated into the body
frame, `grot`. -/
def cfGrot (q : Quat) : V3 :=
  ⟨-(2 * (q.q1 * q.q3 - q.q0 * q.q2)),
   -(2 * (q.q2 * q.q3 + q.q0 * q.q1)),
   -(q.q0 * q.q0 - q.q1 * q.q1 - q.q2 * q.q2 + q.q3 * q.q3)⟩

/-- Lines 287-294 of `attitude.c`: cross the measured accel with `grot` and
divide componentwise by the accel magnitude `sqrtf(accel . accel)`. -/
def cfAccelErr (s : ℚ → ℚ) (accel : V3) (q : Quat) : V3 :=
  let e := crossProd accel (cfGrot q)
  let am := s (accel.x * accel.x + accel.y * accel.y + accel.z * accel.z)
  ⟨e.x / am, e.y / am, e.z / am⟩

/-- Lines 296-326 of `attitude.c`: the magnetic error vector `mag_err`.
The branch structure is embedded exactly as written: the correction is
computed when the non-blocking mag-queue check does NOT return `pdTRUE`
(`magFresh = false`), and `mag_err` is zeroed when it does
(`magFresh = true`). -/
def cfMagErr (s : ℚ → ℚ) (magFresh : Bool) (mag homeBe : V3) (q : Quat) : V3 :=
  if magFresh = false then
    let Rbe := quaternion2R q
    let brot := rotMult Rbe homeBe
    let magLen := s (mag.x * mag.x + mag.y * mag.y + mag.z * mag.z)
    let magN : V3 := ⟨mag.x / magLen, mag.y / magLen, mag.z / magLen⟩
    let bmag := s (brot.x * brot.x + brot.y * brot.y + brot.z * brot.z)
    let brotN : V3 := ⟨brot.x / bmag, brot.y / bmag, brot.z / bmag⟩
    if bmag < 1 ∨ magLen < 1 then ⟨0, 0, 0⟩ else crossProd magN brotN
  else ⟨0, 0, 0⟩

/-- Lines 329-334 of `attitude.c`: the gyro-bias integral update. -/
def cfBiasUpdate (s : ℚ → ℚ) (ki : ℚ) (st : CFState) (inp : CFInputs) : V3 :=
  let ae := cfAccelErr s inp.accel st.q
  let merr := cfMagErr s inp.magFresh inp.mag inp.homeBe st.q
  ⟨st.bias.x + ae.x * ki, st.bias.y + ae.y * ki, st.bias.z + merr.z * magKi⟩

/-- Lines 337-339 of `attitude.c`: proportional correction of the rates. -/
def cfCorrectedRates (s : ℚ → ℚ) (kp : ℚ) (st : CFState) (inp : CFInputs) : V3 :=
  let ae := cfAccelErr s inp.accel st.q
  let merr := cfMagErr s inp.magFresh inp.mag inp.homeBe st.q
  ⟨inp.gyro.x + ae.x * kp / inp.dT,
   inp.gyro.y + ae.y * kp / inp.dT,
   inp.gyro.z + ae.z * kp / inp.dT + merr.z * magKp / inp.dT⟩

/-- Lines 343-353 of `attitude.c`: quaternion time derivative (rates in
deg/s, hence the `F_PI / 180` factor) and the explicit Euler step. -/
def cfIntegrate (q : Quat) (g : V3) (dT : ℚ) : Quat :=
  ⟨q.q0 + (-q.q1 * g.x - q.q2 * g.y - q.q3 * g.z) * dT * fPi / 180 / 2,
   q.q1 + (q.q0 * g.x - q.q3 * g.y + q.q2 * g.z) * dT * fPi / 180 / 2,
   q.q2 + (q.q3 * g.x + q.q0 * g.y - q.q1 * g.z) * dT * fPi / 180 / 2,
   q.q3 + (-q.q2 * g.x + q.q1 * g.y + q.q0 * g.z) * dT * fPi / 180 / 2⟩

/-- Lines 355-360 of `attitude.c`: negate all four components if the scalar
part went negative. -/
def cfFlip (q : Quat) : Quat :=
  if q.q0 < 0 then ⟨-q.q0, -q.q1, -q.q2, -q.q3⟩ else q

/-- The quaternion of lines 343-360: integrated and sign-canonicalized, just
before renormalization.  This is the value whose norm `qmag` the code takes
the square root of. -/
def cfPreNormQ (s : ℚ → ℚ) (kp : ℚ) (st : CFState) (inp : CFInputs) : Quat :=
  cfFlip (cfIntegrate st.q (cfCorrectedRates s kp st inp) inp.dT)

/-- Lines 362-376 of `attitude.c`: renormalize by `qmag = sqrtf(norm²)` and
reinit to the identity quaternion if `fabs(qmag) < 1.0e-3f` or `qmag` is NaN
(`qmag != qmag`, which in the exact rational model is never true but is kept
as written). -/
def cfNormalize (s : ℚ → ℚ) (q : Quat) : Quat :=
  let qmag := s (quatNormSq q)
  let qn : Quat := ⟨q.q0 / qmag, q.q1 / qmag, q.q2 / qmag, q.q3 / qmag⟩
  if |qmag| < 1 / 1000 ∨ qmag ≠ qmag then qId else qn

/-- One full iteration of `updateAttitudeComplimentary` (lines 228-395),
parameterized by the square-root function `s` and by the gains
`accelKp`/`accelKi` in effect this iteration.  A failed gyro wait (line 229)
or a failed accel check (line 234) returns early: the alarm is set to
`WARNING` and neither the attitude nor the bias is written.  A successful
iteration publishes the new quaternion and bias and clears the alarm
(line 393). -/
def cfStep (s : ℚ → ℚ) (kp ki : ℚ) (st : CFState) (inp : CFInputs) : CFState :=
  if inp.gyroFresh = false then { st with alarm := .warning }
  else if inp.accelFresh = false then { st with alarm := .warning }
  else
    ⟨cfNormalize s (cfPreNormQ s kp st inp), cfBiasUpdate s ki st inp, .clear⟩

/-- Modelled from the spec: sensor-channel bit masks declared in `insgps.h`,
which is outside `src/`; spec section 4.3 requires only that
{mag, baro, horizontal, vertical} are distinct channels of the mask, so they
are given distinct non-overlapping bits. -/
def MAG_SENSORS : ℕ := 0x1C0

/-- Modelled from the spec: see `MAG_SENSORS`. -/
def BARO_SENSOR : ℕ := 0x200

/-- Modelled from the spec: see `MAG_SENSORS`. -/
def HORIZ_SENSORS : ℕ := 0x018

/-- Modelled from the spec: see `MAG_SENSORS`. -/
def VERT_SENSORS : ℕ := 0x020

/-- Lines 484, 526-536 of `attitude.c`: the sensor mask handed to
`INSCorrection`, built from this cycle's freshness flags.  `sensors` starts
at 0; mag and baro freshness OR their bits in; GPS freshness ASSIGNS
`HORIZ_SENSORS | VERT_SENSORS`, overwriting whatever was accumulated. -/
def insSensorMask (magU baroU gpsU : Bool) : ℕ :=
  let s0 : ℕ := 0
  let s1 := if magU then s0 ||| MAG_SENSORS else s0
  let s2 := if baroU then s1 ||| BARO_SENSOR else s1
  if gpsU then HORIZ_SENSORS ||| VERT_SENSORS else s2

/-- Lines 491-494 of `attitude.c`: the INS/GPS dT clamp.
`if (dT > 0.01f) dT = 0.01f; else if (dT <= 0.001f) dT = 0.001f;` -/
def insClampDT (dT : ℚ) : ℚ :=
  if 1 / 100 < dT then 1 / 100
  else if dT ≤ 1 / 1000 then 1 / 1000
  else dT

/-- The freshness flags of `updateAttitudeINSGPS`, lines 430-441, embedded
with the indeterminate start values of the three uninitialized C locals made
explicit as `junkMag`/`junkBaro`/`junkGps`: the code declares
`bool mag_updated; bool baro_updated; bool gps_updated;` without
initializers, zeroes `mag_updated` and `baro_updated` only under
`if (inited)`, never zeroes `gps_updated` on any path, and then ORs each
flag with its non-blocking queue check. -/
def insFreshFlags (inited junkMag junkBaro junkGps magQ baroQ gpsQ : Bool) :
    Bool × Bool × Bool :=
  let m0 := if inited then false else junkMag
  let b0 := if inited then false else junkBaro
  let g0 := junkGps
  (m0 || magQ, b0 || baroQ, g0 || gpsQ)

/-- Control-flow outcome of one `updateAttitudeINSGPS` iteration. -/
inductive INSOutcome
| timeout
| abortNoSeed
| seeded
| updated
deriving DecidableEq

/-- The control flow of `updateAttitudeINSGPS`, lines 412-481: a failed
gyro or accel wait is a timeout; before the filter is seeded, any of the
three opportunistic flags being false silently aborts (`return -1`,
line 443-445); otherwise the first full set seeds the filter (lines
446-481) and subsequent iterations run prediction/correction. -/
def insStepOutcome (inited gyroQ accelQ junkMag junkBaro junkGps magQ baroQ gpsQ :
    Bool) : INSOutcome :=
  if gyroQ = false ∨ accelQ = false then .timeout
  else
    let f := insFreshFlags inited junkMag junkBaro junkGps magQ baroQ gpsQ
    if inited = false ∧ (f.1 = false ∨ f.2.1 = false ∨ f.2.2 = false) then
      .abortNoSeed
    else if inited = false then .seeded
    else .updated

/-- Lines 576-579 of `attitude.c`: after `INSCorrection`, if any component
of `Nav.gyro_bias` has magnitude above `0.1f`, the whole bias vector is
reset through `INSSetGyroBias(zeros)` (modelled from the spec: the setter
lives in `insgps.c`, outside `src/`; spec section 4.3 says the offending
state is "forcibly reset to zero"). -/
def insPostCorrectionBias (b : V3) : V3 :=
  if 1 / 10 < |b.x| ∨ 1 / 10 < |b.y| ∨ 1 / 10 < |b.z| then ⟨0, 0, 0⟩ else b

/-- The INS/GPS navigation state visible to this module (`struct NavStruct
Nav` of `insgps.c`). -/
structure NavData where
  q : Quat
  pos : V3
  vel : V3
  gyroBias : V3
deriving DecidableEq

/-- Modelled from the spec: the orientation invariant that
`INSStatePrediction` (in `insgps.c`, outside `src/`) maintains on `Nav.q` —
spec section 3 states the Orientation is a unit quaternion, renormalized
every update and canonicalized so the scalar part is nonnegative. -/
def INSNavQInvariant (nav : NavData) : Prop :=
  quatNormSq nav.q = 1 ∧ 0 ≤ nav.q.q0

/-- Lines 508-515 of `attitude.c`: the quaternion `updateAttitudeINSGPS`
publishes into `AttitudeActual` is `Nav.q`, copied verbatim. -/
def insPublishedAttitude (nav : NavData) : Quat := nav.q

/-- The kind of estimator invoked by the task loop. -/
inductive EstimatorKind
| comp
| insgps
deriving DecidableEq

/-- Line 200 of `attitude.c`: the condition of `if(1)` selecting the
estimator inside `AttitudeTask`. -/
def attitudeTaskCondition : ℕ := 1

/-- Lines 200-203 of `attitude.c`: the estimator the task loop invokes on a
pass (C truthiness: nonzero selects the first branch). -/
def attitudeTaskSelect : EstimatorKind :=
  if attitudeTaskCondition ≠ 0 then .comp else .insgps

/-- The sequence of estimator invocations after `n` passes of the
`while (1)` loop of `AttitudeTask`. -/
def attitudeTaskTrace : ℕ → List EstimatorKind
  | 0 => []
  | n + 1 => attitudeTaskTrace n ++ [attitudeTaskSelect]

/-- The orientation invariant of spec section 3 for the published
quaternion: unit norm (stated exactly on the squared norm, which in the
exact model is equivalent to norm 1) and nonnegative scalar part. -/
def quatInvariant (q : Quat) : Prop :=
  quatNormSq q = 1 ∧ 0 ≤ q.q0

/-- The inputs of the spec section 8 level-hover scenario: gyro `(0,0,0)`
deg/s, accel `(0,0,-9.81)` m/s², magnetometer aligned with (equal to) the
reference field, all streams fresh, `dt = 0.01` s. -/
def c8Inputs (homeBe : V3) : CFInputs :=
  ⟨true, true, true, ⟨0, 0, 0⟩, ⟨0, 0, -9.81⟩, homeBe, homeBe, 1 / 100⟩

/-- One iteration of the level-hover scenario. -/
def c8Step (s : ℚ → ℚ) (kp ki : ℚ) (homeBe : V3) : CFState → CFState :=
  fun st => cfStep s kp ki st (c8Inputs homeBe)

/-- Modelled from the spec: the closed loop of the bias-convergence
scenario.  The gyro bias accumulated by the estimator is applied to the raw
rates by the sensor stage (`updateSensors`, outside `src/`; spec section 3
"GyroBias ... slowly adapted" and the glossary "estimated and subtracted"
describe the feedback), so the rates the filter consumes are the injected
offset plus the accumulated signed bias; the vehicle is level and
stationary, all streams fresh, `dt = 0.01` s. -/
def closedLoopStep (s : ℚ → ℚ) (offset : V3) (kp ki : ℚ) (homeBe : V3)
    (st : CFState) : CFState :=
  cfStep s kp ki st
    ⟨true, true, true,
     ⟨offset.x + st.bias.x, offset.y + st.bias.y, offset.z + st.bias.z⟩,
     ⟨0, 0, -9.81⟩, homeBe, homeBe, 1 / 100⟩

/-- A square-root stand-in used to instantiate witnesses: constantly 1. -/
def unitSqrt : ℚ → ℚ := fun _ => 1

/-- A square-root stand-in exact at 25, used to evaluate the magnetic
correction on concrete vectors of length 5. -/
def sqrtAt25 : ℚ → ℚ := fun x => if x = 25 then 5 else 1

/-- The first-step tilt of the bias-convergence scenario: the `q1` increment
produced by a 1 deg/s roll rate over `dt = 0.01` s. -/
def c8eps : ℚ := 1 * (1 / 100) * fPi / 180 / 2

/-- Squared norm of the integrated quaternion after the first step of the
bias-convergence scenario. -/
def c8n : ℚ := 1 + c8eps * c8eps

/-- The state after `AttitudeInitialize` (lines 126-141: identity
quaternion, zero bias) and the `AlarmsClear` at task start (line 186). -/
def cfInitState : CFState := ⟨qId, ⟨0, 0, 0⟩, .clear⟩

/-- Inputs used to exercise the complementary filter at a given `dT`:
a 1 deg/s roll rate, level accel, all streams fresh. -/
def c9Inputs (dT : ℚ) : CFInputs :=
  ⟨true, true, true, ⟨1, 0, 0⟩, ⟨0, 0, -9.81⟩, ⟨0, 0, 0⟩, ⟨0, 0, 0⟩, dT⟩

/-- The magnetic error branch is zero when the mag-queue check succeeded
(lines 324-326 of `attitude.c`). -/
theorem cfMagErr_fresh (s : ℚ → ℚ) (mag homeBe : V3) (q : Quat) :
    cfMagErr s true mag homeBe q = ⟨0, 0, 0⟩ := rfl

/-- With a level, stationary accel reading and the identity attitude, the
accel error vector is zero whatever value the square root returns. -/
theorem cfAccelErr_level (s : ℚ → ℚ) :
    cfAccelErr s ⟨0, 0, -9.81⟩ qId = ⟨0, 0, 0⟩ := by
  simp [cfAccelErr, crossProd, cfGrot, qId]

/-- Claim C1: the spec says the magnetic correction is computed exactly when
a magnetometer sample is fresh this cycle and that the magnetic error is
zero when it is absent.  The code at line 296 tests
`xQueueReceive(magQueue, &ev, 0) != pdTRUE`, so it does the opposite:
evaluated at the identity attitude with reference field `(0,3,4)` and
measured field `(5,0,0)`, the ABSENT cycle (`magFresh = false`) produces the
nonzero correction `(0,-4/5,3/5)` from stale data, and the FRESH cycle
(`magFresh = true`) zeroes the correction. -/
theorem c1_mag_gate_inverted :
    cfMagErr sqrtAt25 false ⟨5, 0, 0⟩ ⟨0, 3, 4⟩ qId = ⟨0, -4/5, 3/5⟩ ∧
    cfMagErr sqrtAt25 true ⟨5, 0, 0⟩ ⟨0, 3, 4⟩ qId = ⟨0, 0, 0⟩ := by
  constructor
  · norm_num [cfMagErr, sqrtAt25, crossProd, quaternion2R, rotMult, qId]
  · norm_num [cfMagErr]

/-- Claim C4 (corrected): mag and baro freshness OR their channel bits into
the mask, but GPS freshness REPLACES the mask with
`HORIZ_SENSORS | VERT_SENSORS`, discarding the mag and baro bits that cycle;
only when GPS is stale does the mask carry the mag and baro channels exactly
when each is fresh. -/
theorem c4_sensor_mask : ∀ magU baroU gpsU : Bool,
    (gpsU = true →
      insSensorMask magU baroU gpsU = HORIZ_SENSORS ||| VERT_SENSORS ∧
      insSensorMask magU baroU gpsU &&& MAG_SENSORS = 0 ∧
      insSensorMask magU baroU gpsU &&& BARO_SENSOR = 0) ∧
    (gpsU = false →
      insSensorMask magU baroU gpsU &&& MAG_SENSORS =
        (if magU then MAG_SENSORS else 0) ∧
      insSensorMask magU baroU gpsU &&& BARO_SENSOR =
        (if baroU then BARO_SENSOR else 0)) := by
  decide

/-- Claim C4, counterexample to the claim as stated: with mag, baro and GPS
all fresh in the same cycle, the mask does not contain the magnetometer
channel (nor the barometer channel), because the GPS branch assigns instead
of ORing. -/
theorem c4_gps_mask_cex :
    insSensorMask true true true &&& MAG_SENSORS = 0 ∧
    insSensorMask true true true &&& BARO_SENSOR = 0 ∧
    MAG_SENSORS ≠ 0 ∧ BARO_SENSOR ≠ 0 := by
  decide

/-- Claim C5: before initialization the code is meant to abort unless all
five streams are fresh, but the freshness locals are read uninitialized
(lines 430-441: they are zeroed only under `if (inited)` and `gps_updated`
never).  Evaluated at the failing input — first pre-init iteration, gyro,
accel, mag and baro fresh, GPS queue empty — an indeterminate true start
value for `gps_updated` makes the iteration seed the filter from stale GPS
data, while the same iteration with the start value false aborts as the
claim requires. -/
theorem c5_preinit_junk_seed :
    insStepOutcome false true true false false true true true false =
      .seeded ∧
    insStepOutcome false true true false false false true true false =
      .abortNoSeed := by
  decide

/-- Claim C7: the freshness indicators are not a function of the same
iteration's non-blocking checks alone.  With every queue check failing this
iteration, the `gps_updated` flag reads true or false depending only on the
indeterminate start value of the uninitialized local (even after the filter
is initialized), and pre-initialization the `mag_updated` flag likewise
carries its indeterminate start value. -/
theorem c7_freshness_flags_junk :
    (insFreshFlags true false false true false false false).2.2 = true ∧
    (insFreshFlags true false false false false false false).2.2 = false ∧
    (insFreshFlags false true false false false false false).1 = true := by
  decide

/-- Claim C6: any gyro-bias component whose magnitude exceeds 0.1 after
`INSCorrection` reads exactly 0 after the clamp of lines 576-579 (the code
in fact resets the whole bias vector whenever any component exceeds 0.1, so
in particular the offending component reads 0). -/
theorem c6_bias_clamp (b : V3) :
    (1 / 10 < |b.x| → (insPostCorrectionBias b).x = 0) ∧
    (1 / 10 < |b.y| → (insPostCorrectionBias b).y = 0) ∧
    (1 / 10 < |b.z| → (insPostCorrectionBias b).z = 0) := by
  unfold insPostCorrectionBias
  split_ifs with h
  · exact ⟨fun _ => rfl, fun _ => rfl, fun _ => rfl⟩
  · push_neg at h
    exact ⟨fun hx => absurd hx (not_lt.mpr h.1),
      fun hy => absurd hy (not_lt.mpr h.2.1),
      fun hz => absurd hz (not_lt.mpr h.2.2)⟩

/-- Witness for `c6_bias_clamp` at the concrete bias `(1,0,0)`. -/
theorem c6_bias_clamp_witness :
    (insPostCorrectionBias ⟨1, 0, 0⟩).x = 0 :=
  (c6_bias_clamp ⟨1, 0, 0⟩).1 (by norm_num)

/-- Claim C10: the estimator selection condition at line 200 is the constant
`if(1)`, so every pass of the task loop invokes the complementary filter and
the INS/GPS update never appears in the invocation trace. -/
theorem c10_complementary_always (n : ℕ) :
    attitudeTaskSelect = .comp ∧
    EstimatorKind.insgps ∉ attitudeTaskTrace n := by
  refine ⟨by decide, ?_⟩
  induction n with
  | zero => simp [attitudeTaskTrace]
  | succ k ih =>
    simp only [attitudeTaskTrace, List.mem_append, List.mem_singleton]
    rintro (h | h)
    · exact ih h
    · exact absurd h.symm (by decide)

/-- Claim C3, counterexample to the claim as stated: the claim says both the
gyro and the accelerometer waits use a bounded timeout of about 10 ms, but
the accel check of line 234 passes a timeout of 0 ticks — it is a
non-blocking poll, not a ~10 ms wait. -/
theorem c3_accel_timeout_cex :
    cfAccelTimeoutMs = 0 ∧ cfGyroTimeoutMs = 10 ∧
    cfAccelTimeoutMs ≠ cfGyroTimeoutMs := by
  decide

/-- Claim C3 (corrected): the gyro wait uses the ~10 ms failsafe timeout and
the accel check is a zero-timeout poll; if either fails, the iteration fails
immediately with no retry — the alarm is set to WARNING and the published
orientation and bias are bit-identical to the previous iteration's values —
and the alarm is cleared exactly by the next fully successful iteration. -/
theorem c3_arbiter_failure_behavior :
    cfGyroTimeoutMs = 10 ∧ cfAccelTimeoutMs = 0 ∧
    (∀ (s : ℚ → ℚ) (kp ki : ℚ) (st : CFState) (inp : CFInputs),
      inp.gyroFresh = false ∨ inp.accelFresh = false →
      cfStep s kp ki st inp = { st with alarm := .warning }) ∧
    (∀ (s : ℚ → ℚ) (kp ki : ℚ) (st : CFState) (inp : CFInputs),
      inp.gyroFresh = true → inp.accelFresh = true →
      (cfStep s kp ki st inp).alarm = .clear) := by
  refine ⟨rfl, rfl, ?_, ?_⟩
  · intro s kp ki st inp h
    rcases h with h | h
    · simp [cfStep, h]
    · rcases hg : inp.gyroFresh with _ | _
      · simp [cfStep, hg]
      · simp [cfStep, hg, h]
  · intro s kp ki st inp hg ha
    simp [cfStep, hg, ha]

/-- Witness for `c3_arbiter_failure_behavior`: a concrete failed gyro wait
retains the state and raises the alarm, and a concrete successful iteration
clears it. -/
theorem c3_arbiter_failure_behavior_witness :
    cfStep unitSqrt 0 0 cfInitState
      ⟨false, true, true, ⟨0, 0, 0⟩, ⟨0, 0, -9.81⟩, ⟨0, 0, 0⟩, ⟨0, 0, 0⟩,
        1 / 100⟩ =
      { cfInitState with alarm := .warning } ∧
    (cfStep unitSqrt 0 0 cfInitState (c9Inputs (1 / 100))).alarm = .clear :=
  ⟨c3_arbiter_failure_behavior.2.2.1 unitSqrt 0 0 cfInitState _ (Or.inl rfl),
   c3_arbiter_failure_behavior.2.2.2 unitSqrt 0 0 cfInitState _ rfl rfl⟩

/-- Witness for `c4_sensor_mask` at mag and baro fresh, GPS fresh and GPS
stale respectively. -/
theorem c4_sensor_mask_witness :
    insSensorMask true true true = HORIZ_SENSORS ||| VERT_SENSORS ∧
    insSensorMask true true false &&& MAG_SENSORS = MAG_SENSORS :=
  ⟨((c4_sensor_mask true true true).1 rfl).1, by
    have h := ((c4_sensor_mask true true false).2 rfl).1
    simpa using h⟩

/-- Claim C9: the complementary filter uses its measured `dT` unclamped —
two iterations differing only in `dT` values both far above the INS/GPS
clamp range produce different quaternions — while the INS/GPS estimator
clamps `dT` into `[1 ms, 10 ms]` (and leaves it unchanged inside that
interval) before prediction, collapsing those same two values. -/
theorem c9_dt_clamp_asymmetry :
    (∀ dT : ℚ, 1 / 1000 ≤ insClampDT dT ∧ insClampDT dT ≤ 1 / 100) ∧
    (∀ dT : ℚ, 1 / 1000 ≤ dT → dT ≤ 1 / 100 → insClampDT dT = dT) ∧
    insClampDT (1 / 50) = insClampDT 5 ∧
    (cfStep unitSqrt 0 0 cfInitState (c9Inputs (1 / 50))).q ≠
      (cfStep unitSqrt 0 0 cfInitState (c9Inputs 5)).q := by
  refine ⟨?_, ?_, by norm_num [insClampDT], ?_⟩
  · intro dT
    unfold insClampDT
    split_ifs <;> constructor <;> linarith
  · intro dT h1 h2
    unfold insClampDT
    split_ifs
    · linarith
    · linarith
    · rfl
  · norm_num [cfStep, c9Inputs, cfInitState, cfPreNormQ, cfBiasUpdate,
      cfCorrectedRates, cfIntegrate, cfFlip, cfNormalize, cfAccelErr_level,
      cfMagErr_fresh, quatNormSq, qId, unitSqrt, fPi]

/-- Witness for `c9_dt_clamp_asymmetry`: the clamp evaluated inside and
outside its interval. -/
theorem c9_dt_clamp_asymmetry_witness :
    (1 / 1000 ≤ insClampDT 5 ∧ insClampDT 5 ≤ 1 / 100) ∧
    insClampDT (1 / 200) = 1 / 200 :=
  ⟨c9_dt_clamp_asymmetry.1 5,
   c9_dt_clamp_asymmetry.2.1 (1 / 200) (by norm_num) (by norm_num)⟩

/-- Witness for `c10_complementary_always` after three loop passes. -/
theorem c10_complementary_always_witness :
    EstimatorKind.insgps ∉ attitudeTaskTrace 3 :=
  (c10_complementary_always 3).2

/-- The sign canonicalization of lines 355-360 leaves the scalar part
nonnegative. -/
theorem cfFlip_q0_nonneg (q : Quat) : 0 ≤ (cfFlip q).q0 := by
  unfold cfFlip
  split_ifs with h
  · simp only []
    linarith
  · exact not_lt.mp h

/-- Renormalization (lines 362-376) produces a quaternion of squared norm
exactly 1 with nonnegative scalar part, whenever the incoming scalar part is
nonnegative and the square root returns a nonnegative value whose square is
the incoming squared norm; the recovery branch returns the identity, which
also satisfies the invariant. -/
theorem cfNormalize_invariant (s : ℚ → ℚ) (q : Quat)
    (h0 : 0 ≤ q.q0) (hpos : 0 ≤ s (quatNormSq q))
    (hsq : s (quatNormSq q) * s (quatNormSq q) = quatNormSq q) :
    quatInvariant (cfNormalize s q) := by
  unfold cfNormalize
  simp only []
  split_ifs with h
  · exact ⟨by norm_num [quatNormSq, qId], by norm_num [qId]⟩
  · push_neg at h
    have hmne : s (quatNormSq q) ≠ 0 := by
      intro he
      rw [he] at h
      norm_num at h
    have hmpos : 0 < s (quatNormSq q) := lt_of_le_of_ne hpos (Ne.symm hmne)
    constructor
    · show quatNormSq ⟨q.q0 / s (quatNormSq q), q.q1 / s (quatNormSq q),
        q.q2 / s (quatNormSq q), q.q3 / s (quatNormSq q)⟩ = 1
      unfold quatNormSq at hsq hmne ⊢
      field_simp
      ring_nf
      ring_nf at hsq
      linarith [hsq]
    · exact div_nonneg h0 hpos

/-- Claim C2: after every iteration of either estimator, including the
numeric-recovery paths, the published quaternion has squared norm exactly 1
(hence norm 1, well within the 1e-5 tolerance of the claim — the model is
exact) and nonnegative scalar part.  For the complementary filter this is an
invariant preserved by every iteration (failed iterations retain the
previous quaternion; successful ones renormalize and sign-canonicalize, and
the recovery branch resets to the identity), under the hypotheses that the
square root applied to the integrated squared norm is nonnegative and
squares back to its argument.  For the INS/GPS estimator the published
quaternion is `Nav.q` verbatim, which carries the invariant maintained by
the prediction step. -/
theorem c2_quaternion_invariant :
    (∀ (s : ℚ → ℚ) (kp ki : ℚ) (st : CFState) (inp : CFInputs),
      0 ≤ s (quatNormSq (cfPreNormQ s kp st inp)) →
      s (quatNormSq (cfPreNormQ s kp st inp)) *
          s (quatNormSq (cfPreNormQ s kp st inp)) =
        quatNormSq (cfPreNormQ s kp st inp) →
      quatInvariant st.q →
      quatInvariant (cfStep s kp ki st inp).q) ∧
    (∀ nav : NavData, INSNavQInvariant nav →
      quatNormSq (insPublishedAttitude nav) = 1 ∧
      0 ≤ (insPublishedAttitude nav).q0) := by
  constructor
  · intro s kp ki st inp hpos hsq hinv
    unfold cfStep
    split_ifs with h1 h2
    · simpa using hinv
    · simpa using hinv
    · simpa using cfNormalize_invariant s (cfPreNormQ s kp st inp)
        (cfFlip_q0_nonneg _) hpos hsq
  · intro nav hn
    exact ⟨hn.1, hn.2⟩

/-- Witness for `c2_quaternion_invariant`: a successful level iteration from
the initial state with the constant-1 square root (exact there, since the
integrated quaternion has squared norm 1), and a concrete INS state. -/
theorem c2_quaternion_invariant_witness :
    quatInvariant (cfStep unitSqrt 0 0 cfInitState (c8Inputs ⟨0, 0, 0⟩)).q ∧
    quatNormSq (insPublishedAttitude ⟨qId, ⟨0, 0, 0⟩, ⟨0, 0, 0⟩,
      ⟨0, 0, 0⟩⟩) = 1 :=
  ⟨c2_quaternion_invariant.1 unitSqrt 0 0 cfInitState (c8Inputs ⟨0, 0, 0⟩)
      (by norm_num [unitSqrt])
      (by norm_num [unitSqrt, cfPreNormQ, cfCorrectedRates, cfIntegrate,
        cfFlip, cfAccelErr_level, cfMagErr_fresh, c8Inputs, cfInitState,
        quatNormSq, qId, fPi])
      (by exact ⟨by norm_num [quatNormSq, cfInitState, qId],
        by norm_num [cfInitState, qId]⟩),
   (c2_quaternion_invariant.2 ⟨qId, ⟨0, 0, 0⟩, ⟨0, 0, 0⟩, ⟨0, 0, 0⟩⟩
      ⟨by norm_num [quatNormSq, qId], by norm_num [qId]⟩).1⟩

/-- On a successful iteration (both mandatory streams fresh) the published
bias is the integral update of lines 329-334. -/
theorem cfStep_bias_success (s : ℚ → ℚ) (kp ki : ℚ) (st : CFState)
    (inp : CFInputs) (hg : inp.gyroFresh = true) (ha : inp.accelFresh = true) :
    (cfStep s kp ki st inp).bias = cfBiasUpdate s ki st inp := by
  simp [cfStep, hg, ha]

/-- On a successful iteration the published quaternion is the renormalized
integrated quaternion of lines 343-378. -/
theorem cfStep_q_success (s : ℚ → ℚ) (kp ki : ℚ) (st : CFState)
    (inp : CFInputs) (hg : inp.gyroFresh = true) (ha : inp.accelFresh = true) :
    (cfStep s kp ki st inp).q = cfNormalize s (cfPreNormQ s kp st inp) := by
  simp [cfStep, hg, ha]

/-- In the level, stationary scenario (zero rates, accel `(0,0,-9.81)`, mag
fresh) the iteration is the identity on the quaternion and bias, whatever
the gains, provided the square root is exact at 1. -/
theorem cfStep_level_fixed (s : ℚ → ℚ) (kp ki : ℚ) (mag homeBe b : V3)
    (al : AlarmState) (hs : s 1 = 1) :
    cfStep s kp ki ⟨qId, b, al⟩
      ⟨true, true, true, ⟨0, 0, 0⟩, ⟨0, 0, -9.81⟩, mag, homeBe, 1 / 100⟩ =
      ⟨qId, b, .clear⟩ := by
  obtain ⟨b1, b2, b3⟩ := b
  norm_num [cfStep, cfBiasUpdate, cfCorrectedRates, cfPreNormQ, cfIntegrate,
    cfFlip, cfNormalize, cfAccelErr, crossProd, cfGrot, cfMagErr, quatNormSq,
    qId, magKi, magKp, hs]

/-- The x-component of the bias update, read off the definition. -/
theorem cfBiasUpdate_x (s : ℚ → ℚ) (ki : ℚ) (st : CFState) (inp : CFInputs) :
    (cfBiasUpdate s ki st inp).x =
      st.bias.x + (cfAccelErr s inp.accel st.q).x * ki := rfl

/-- With a level accel reading and an attitude tilted positively about the
roll axis (`q = (c,d,0,0)`, `c,d > 0`), the x-component of the accel error
is strictly negative (divided by whatever positive value the square root
returns for the squared accel magnitude `96.2361`). -/
theorem cfAccelErr_x_tilted (s : ℚ → ℚ) (c d : ℚ) :
    (cfAccelErr s ⟨0, 0, -9.81⟩ ⟨c, d, 0, 0⟩).x =
      -(981 / 50) * (c * d) / s (962361 / 10000) := by
  unfold cfAccelErr crossProd cfGrot
  norm_num
  ring_nf

/-- Claim C8: in the level-hover scenario (gyro `(0,0,0)` deg/s, accel
`(0,0,-9.81)` m/s², mag aligned with the reference field, `dt = 0.01` s,
initial quaternion the identity) the published quaternion is exactly the
identity after each of 100 iterations, for every gain setting, provided the
square root is exact at 1.  With a constant `+1` deg/s roll-rate offset
injected and the accumulated bias fed back by the sensor stage, the bias
converges toward `-1` deg/s: the state with bias exactly `(-1,0,0)` and
identity attitude is a fixed point of the closed loop; from any attitude
tilted positively about the roll axis the accel error strictly decreases the
roll bias (it opposes the offset); and from the identity the first offset
step tilts the attitude positively (both `q1` and `q0` of the published
quaternion are positive). -/
theorem c8_level_scenario :
    (∀ (s : ℚ → ℚ) (kp ki : ℚ) (homeBe b : V3), s 1 = 1 →
      (c8Step s kp ki homeBe)^[100] ⟨qId, b, .clear⟩ = ⟨qId, b, .clear⟩) ∧
    (∀ (s : ℚ → ℚ) (kp ki : ℚ) (homeBe : V3), s 1 = 1 →
      closedLoopStep s ⟨1, 0, 0⟩ kp ki homeBe ⟨qId, ⟨-1, 0, 0⟩, .clear⟩ =
        ⟨qId, ⟨-1, 0, 0⟩, .clear⟩) ∧
    (∀ (s : ℚ → ℚ) (kp ki c d : ℚ) (homeBe bz : V3) (al : AlarmState),
      0 < c → 0 < d → 0 < ki → 0 < s (962361 / 10000) →
      (closedLoopStep s ⟨1, 0, 0⟩ kp ki homeBe
          ⟨⟨c, d, 0, 0⟩, bz, al⟩).bias.x < bz.x) ∧
    (∀ (s : ℚ → ℚ) (kp ki : ℚ) (homeBe : V3), 1 / 1000 ≤ s c8n →
      0 < (closedLoopStep s ⟨1, 0, 0⟩ kp ki homeBe
            ⟨qId, ⟨0, 0, 0⟩, .clear⟩).q.q1 ∧
      0 < (closedLoopStep s ⟨1, 0, 0⟩ kp ki homeBe
            ⟨qId, ⟨0, 0, 0⟩, .clear⟩).q.q0) := by
  refine ⟨?_, ?_, ?_, ?_⟩
  · intro s kp ki homeBe b hs
    apply Function.iterate_fixed
    exact cfStep_level_fixed s kp ki homeBe homeBe b .clear hs
  · intro s kp ki homeBe hs
    show cfStep s kp ki ⟨qId, ⟨-1, 0, 0⟩, .clear⟩
      ⟨true, true, true, ⟨1 + (-1 : ℚ), (0 : ℚ) + 0, (0 : ℚ) + 0⟩,
        ⟨0, 0, -9.81⟩, homeBe, homeBe, 1 / 100⟩ = ⟨qId, ⟨-1, 0, 0⟩, .clear⟩
    have hg : (⟨1 + (-1 : ℚ), (0 : ℚ) + 0, (0 : ℚ) + 0⟩ : V3) = ⟨0, 0, 0⟩ := by
      norm_num
    rw [hg]
    exact cfStep_level_fixed s kp ki homeBe homeBe ⟨-1, 0, 0⟩ .clear hs
  · intro s kp ki c d homeBe bz al hc hd hki hspos
    unfold closedLoopStep
    rw [cfStep_bias_success _ _ _ _ _ rfl rfl, cfBiasUpdate_x]
    dsimp only
    rw [cfAccelErr_x_tilted]
    have hcd : (0 : ℚ) < c * d := mul_pos hc hd
    have hnum : -(981 / 50) * (c * d) < 0 := by nlinarith
    have hterm : -(981 / 50) * (c * d) / s (962361 / 10000) * ki < 0 :=
      mul_neg_of_neg_of_pos (div_neg_of_neg_of_pos hnum hspos) hki
    linarith
  · intro s kp ki homeBe hs
    have hm : 0 < s c8n := lt_of_lt_of_le (by norm_num) hs
    have key : (closedLoopStep s ⟨1, 0, 0⟩ kp ki homeBe
        ⟨qId, ⟨0, 0, 0⟩, .clear⟩).q = cfNormalize s ⟨1, c8eps, 0, 0⟩ := by
      unfold closedLoopStep
      rw [cfStep_q_success _ _ _ _ _ rfl rfl]
      congr 1
      norm_num [cfPreNormQ, cfCorrectedRates, cfIntegrate, cfFlip, cfAccelErr,
        crossProd, cfGrot, cfMagErr, qId, c8eps, fPi, magKp]
    rw [key]
    have hns : quatNormSq ⟨1, c8eps, 0, 0⟩ = c8n := by
      norm_num [quatNormSq, c8n, c8eps, fPi]
    unfold cfNormalize
    simp only [hns]
    split_ifs with h
    · exfalso
      rcases h with h | h
      · rw [abs_of_pos hm] at h
        linarith
      · exact h rfl
    · constructor
      · exact div_pos (by norm_num [c8eps, fPi]) hm
      · exact div_pos one_pos hm

/-- Witness for `c8_level_scenario` with the constant-1 square root, unit
gains, zero reference field and concrete states. -/
theorem c8_level_scenario_witness :
    (c8Step unitSqrt 1 1 ⟨0, 0, 0⟩)^[100] ⟨qId, ⟨0, 0, 0⟩, .clear⟩ =
      ⟨qId, ⟨0, 0, 0⟩, .clear⟩ ∧
    closedLoopStep unitSqrt ⟨1, 0, 0⟩ 1 1 ⟨0, 0, 0⟩
        ⟨qId, ⟨-1, 0, 0⟩, .clear⟩ = ⟨qId, ⟨-1, 0, 0⟩, .clear⟩ ∧
    (closedLoopStep unitSqrt ⟨1, 0, 0⟩ 1 1 ⟨0, 0, 0⟩
        ⟨⟨1, 1, 0, 0⟩, ⟨0, 0, 0⟩, .clear⟩).bias.x < 0 ∧
    0 < (closedLoopStep unitSqrt ⟨1, 0, 0⟩ 1 1 ⟨0, 0, 0⟩
        ⟨qId, ⟨0, 0, 0⟩, .clear⟩).q.q1 :=
  by
  refine ⟨?_, ?_, ?_, ?_⟩
  · exact c8_level_scenario.1 unitSqrt 1 1 ⟨0, 0, 0⟩ ⟨0, 0, 0⟩ rfl
  · exact c8_level_scenario.2.1 unitSqrt 1 1 ⟨0, 0, 0⟩ rfl
  · have h := c8_level_scenario.2.2.1 unitSqrt 1 1 1 1 ⟨0, 0, 0⟩ ⟨0, 0, 0⟩
      AlarmState.clear (by norm_num) (by norm_num) (by norm_num)
      (by norm_num [unitSqrt])
    simpa using h
  · exact (c8_level_scenario.2.2.2 unitSqrt 1 1 ⟨0, 0, 0⟩
      (by norm_num [unitSqrt])).1
